import Mathlib

/-!
Verification of the dynout terminal-output library.

Shallow embedding of the data model and operations:
  - `Stringifyable` models a JavaScript content field value: all that the
    rendering pipeline observes about a field is its truthiness (used by
    `Array.prototype.filter((e) => e)`) and its string conversion
    (`String(e)`).  The JavaScript value `undefined` is modelled by
    `jsUndefined` (falsy, converts to the text "undefined").
  - `OutputLine` mirrors the `OutputLine` class of `output_entry.ts`:
    a text row plus the owning entry's closed flag captured at creation.
  - `OutputEntry` mirrors the mutable state of the `OutputEntry` class:
    content fields, separator, closed and deleted flags, and the memoized
    rendered-lines cache `contentMemo`.
  - `OutputBuffer` mirrors the `OutputBuffer` class of `output.ts`:
    the line sequence plus the `firstOpenLineIdx` marker.
  - `RenderSchedState` models the scheduling state of `Output._rerender`:
    the `isRenderQueued` flag, the number of pending `setTimeout`
    callbacks, and a counter of invocations of the throttled renderer.

Stateful methods are embedded as explicit state-passing functions.  A
method that may call `Output._rerender` additionally returns a `Bool`
recording whether a render was requested by the call, and `update`
records via `returnsHandle` whether the method returned `this` (the
entry handle) to its caller or returned `undefined`.
-/

/-- A JavaScript value as seen by the rendering pipeline: its truthiness
and its string conversion. -/
structure Stringifyable where
  truthy : Bool
  toStr : String
deriving DecidableEq

/-- The JavaScript value `undefined` used as an absent content field:
falsy, and `String(undefined)` is "undefined". -/
def jsUndefined : Stringifyable := { truthy := false, toStr := "undefined" }

/-- Split a character list at every occurrence of `sep`, keeping empty
pieces — the semantics of JavaScript `String.prototype.split` with a
single-character separator.  In particular the empty string yields one
empty piece, matching `"".split("\n") === [""]`. -/
def splitOnChar (sep : Char) : List Char → List (List Char)
  | [] => [[]]
  | c :: rest =>
    let r := splitOnChar sep rest
    if c = sep then [] :: r
    else
      match r with
      | [] => [[c]]
      | h :: t => (c :: h) :: t

/-- The JavaScript `.split("\n")` used by `OutputEntry.getContent`. -/
def jsSplitLines (s : String) : List String :=
  (splitOnChar (Char.ofNat 10) s.data).map fun l => String.mk l

/-- One rendered text row, tagged with whether the owning entry was
closed at the moment the row was produced (`OutputLine` in
`output_entry.ts`). -/
structure OutputLine where
  content : String
  entryClosed : Bool
deriving DecidableEq

/-- The mutable state of an `OutputEntry` from `output_entry.ts`. -/
structure OutputEntry where
  content : List Stringifyable
  separator : String
  isClosed : Bool
  isDeleted : Bool
  contentMemo : Option (List OutputLine)
deriving DecidableEq

/-- A fresh entry as built by the `OutputEntry` constructor: the given
initial content, separator a single space, open, not deleted, no memo. -/
def mkEntry (initialContent : List Stringifyable) : OutputEntry :=
  { content := initialContent
    separator := " "
    isClosed := false
    isDeleted := false
    contentMemo := none }

namespace OutputEntry

/-- The rendered-lines computation in `OutputEntry.getContent`
(the memo-miss path): keep truthy fields, convert each to text, join
with the separator, split the joined text on newlines, and wrap each
row as an `OutputLine` tagged with the current closed flag. -/
def renderLines (e : OutputEntry) : List OutputLine :=
  (jsSplitLines (String.intercalate e.separator
      ((e.content.filter fun c => c.truthy).map fun c => c.toStr))).map
    fun txt => { content := txt, entryClosed := e.isClosed }

/-- `OutputEntry.getContent`: return the memoized lines if present,
otherwise recompute them and store the memo.  Returns the lines together
with the updated entry state. -/
def getContent (e : OutputEntry) : List OutputLine × OutputEntry :=
  match e.contentMemo with
  | some memo => (memo, e)
  | none =>
    let r := e.renderLines
    (r, { e with contentMemo := some r })

/-- `OutputEntry.setSeparator`: replace the separator and clear the memo;
a render is requested when the `rerender` argument is truthy and the
separator actually changed.  Returns the new state and whether a render
was requested.  Note: not gated by the closed flag. -/
def setSeparator (e : OutputEntry) (separator : String) (rerender : Bool) :
    OutputEntry × Bool :=
  ({ e with separator := separator, contentMemo := none },
   rerender && e.separator != separator)

/-- The argument of `OutputEntry.update`: either a direct value or a
transform function of the current content.  A transform that throws is
modelled by returning `none`. -/
inductive UpdateArg where
  | val : List Stringifyable → UpdateArg
  | fn : (List Stringifyable → Option (List Stringifyable)) → UpdateArg

/-- The outcome of a call to `OutputEntry.update`: the new entry state,
whether `Output._rerender` was called, and whether the method returned
`this` (the handle) rather than `undefined`. -/
structure UpdateResult where
  entry : OutputEntry
  renderRequested : Bool
  returnsHandle : Bool
deriving DecidableEq

/-- `OutputEntry.update`: if closed, return immediately (a bare
`return;`, i.e. `undefined`, with no state change).  Otherwise clear the
memo, then apply the value or the transform inside `try`: on success
assign the content and request a render; a thrown transform is swallowed
by the empty `catch`, leaving the previous content and requesting no
render.  In the non-closed cases the method ends with `return this`. -/
def update (e : OutputEntry) (value : UpdateArg) : UpdateResult :=
  if e.isClosed then { entry := e, renderRequested := false, returnsHandle := false }
  else
    let e1 := { e with contentMemo := none }
    match value with
    | .val v =>
      { entry := { e1 with content := v }, renderRequested := true, returnsHandle := true }
    | .fn f =>
      match f e1.content with
      | some v =>
        { entry := { e1 with content := v }, renderRequested := true, returnsHandle := true }
      | none =>
        { entry := e1, renderRequested := false, returnsHandle := true }

/-- `OutputEntry.delete`: mark closed and deleted, clear the memo and the
content, and request a render.  Returns the new state and the render
request. -/
def delete (e : OutputEntry) : OutputEntry × Bool :=
  ({ e with isClosed := true, isDeleted := true, contentMemo := none, content := [] },
   true)

/-- `OutputEntry.close`: mark closed.  The memo is left in place. -/
def close (e : OutputEntry) : OutputEntry :=
  { e with isClosed := true }

/-- Fold a list of `update` calls over an entry, keeping only the entry
state (the coalesced render requests are irrelevant to content claims). -/
def applyUpdates (e : OutputEntry) : List UpdateArg → OutputEntry
  | [] => e
  | a :: rest => applyUpdates (e.update a).entry rest

end OutputEntry

/-- The state of an `OutputBuffer` from `output.ts`: the accumulated
lines and the `firstOpenLineIdx` field (initially `0`). -/
structure OutputBuffer where
  lines : List OutputLine
  firstOpenLineIdx : Nat
deriving DecidableEq

namespace OutputBuffer

/-- A fresh buffer: no lines, `firstOpenLineIdx = 0`. -/
def empty : OutputBuffer := { lines := [], firstOpenLineIdx := 0 }

/-- The loop body of `OutputBuffer.put`: `i` is the loop index within the
`lines` argument of the current call, and `checkClosed` is the local
flag initialised to `true` at the start of each call.  Each line is
pushed; on the first non-closed line of this call (while `checkClosed`
holds) `firstOpenLineIdx` is assigned the local index `i`. -/
def putAux (buf : OutputBuffer) (checkClosed : Bool) (i : Nat) :
    List OutputLine → OutputBuffer
  | [] => buf
  | l :: rest =>
    let buf1 := { buf with lines := buf.lines ++ [l] }
    if checkClosed && !l.entryClosed then
      putAux { buf1 with firstOpenLineIdx := i } false (i + 1) rest
    else
      putAux buf1 checkClosed (i + 1) rest

/-- `OutputBuffer.put`. -/
def put (buf : OutputBuffer) (ls : List OutputLine) : OutputBuffer :=
  putAux buf true 0 ls

/-- The comparison performed at index `i` by
`OutputBuffer.findFirstDifferentLine`:
`this.lines[i]?.content !== buff.lines[i]?.content`, i.e. the optional
text of the two sides differs (an absent line on one side with a present
line on the other counts as different). -/
def diffAt (a b : OutputBuffer) (i : Nat) : Bool :=
  (a.lines.get? i).map OutputLine.content != (b.lines.get? i).map OutputLine.content

/-- The scan loop of `OutputBuffer.findFirstDifferentLine`: from `i` up
to (excluding) `lim`, return the first index where `diffAt` holds, else
`none`. -/
def findAux (a b : OutputBuffer) (lim i : Nat) : Option Nat :=
  if i < lim then
    if a.diffAt b i then some i else findAux a b lim (i + 1)
  else none
termination_by lim - i
decreasing_by omega

/-- `OutputBuffer.findFirstDifferentLine`: scan from the receiver's
`firstOpenLineIdx` to the maximum of the two line counts. -/
def findFirstDifferentLine (a b : OutputBuffer) : Option Nat :=
  findAux a b (max a.lines.length b.lines.length) a.firstOpenLineIdx

/-- `OutputBuffer.lineCount`. -/
def lineCount (b : OutputBuffer) : Nat := b.lines.length

/-- `OutputBuffer.slice`. -/
def slice (b : OutputBuffer) (fromLineIdx : Nat) : List OutputLine :=
  b.lines.drop fromLineIdx

/-- Specification-level description of `findFirstDifferentLine`, written
from the spec's words: among the indices from `firstOpenLineIdx` up to
the maximum of the two buffers' line counts, the first one at which the
two Lines' texts differ (one side having no Line at that index while the
other does counts as a difference); `none` when the scan completes
without finding one. -/
def findFirstDifferentLineSpec (a b : OutputBuffer) : Option Nat :=
  (List.range' a.firstOpenLineIdx
      (max a.lines.length b.lines.length - a.firstOpenLineIdx)).find?
    (a.diffAt b)

end OutputBuffer

/-- The scheduling state of `Output._rerender`: the `isRenderQueued`
flag, the number of `setTimeout` callbacks scheduled but not yet fired,
and how many times the throttled render function has been invoked. -/
structure RenderSchedState where
  isRenderQueued : Bool
  pendingTimeouts : Nat
  throttledInvocations : Nat
deriving DecidableEq

/-- A call to `Output._rerender`: if a render is already queued, do
nothing; otherwise set the queued flag and schedule one `setTimeout`
callback. -/
def rerenderRequest (s : RenderSchedState) : RenderSchedState :=
  if s.isRenderQueued then s
  else { s with isRenderQueued := true, pendingTimeouts := s.pendingTimeouts + 1 }

/-- The `setTimeout` callback of `Output._rerender` firing: clear the
queued flag and invoke the throttled render function once. -/
def fireTimeout (s : RenderSchedState) : RenderSchedState :=
  { s with
    isRenderQueued := false
    pendingTimeouts := s.pendingTimeouts - 1
    throttledInvocations := s.throttledInvocations + 1 }

/-- Truthiness of an optional JavaScript string: `undefined` and the
empty string are falsy. -/
def strTruthy : Option String → Bool
  | none => false
  | some s => s != ""

/-- `Output.line` restricted to the state of the entry it builds: create
the entry, apply the separator only when the separator argument is
truthy (`if (separator)`), then close the entry. -/
def lineOp (content : List Stringifyable) (separator : Option String) : OutputEntry :=
  let e := mkEntry content
  let e1 :=
    match separator with
    | some s => if s != "" then (e.setSeparator s false).1 else e
    | none => e
  e1.close

/-- `Output.dline` restricted to the state of the entry it builds: create
the entry and apply the separator whenever the argument is defined
(`if (separator !== undefined)`); the entry stays open. -/
def dlineOp (content : List Stringifyable) (separator : Option String) : OutputEntry :=
  let e := mkEntry content
  match separator with
  | some s => (e.setSeparator s false).1
  | none => e

/-! ## Helper lemmas -/

/-- A closed entry ignores `update` completely: the guard at the top of
`OutputEntry.update` takes the bare `return;` path, leaving the state
untouched, requesting no render and returning `undefined`. -/
theorem OutputEntry.update_of_closed (e : OutputEntry) (a : OutputEntry.UpdateArg)
    (h : e.isClosed = true) :
    e.update a = { entry := e, renderRequested := false, returnsHandle := false } := by
  simp [OutputEntry.update, h]

/-- Folding any list of `update` calls over a closed entry leaves the
entry state unchanged. -/
theorem OutputEntry.applyUpdates_of_closed (e : OutputEntry) (h : e.isClosed = true) :
    ∀ args : List OutputEntry.UpdateArg, e.applyUpdates args = e := by
  intro args
  induction args with
  | nil => rfl
  | cons a rest ih =>
    have h1 : e.applyUpdates (a :: rest) = ((e.update a).entry).applyUpdates rest := rfl
    rw [h1, OutputEntry.update_of_closed e a h]
    exact ih

/-! ## Claims -/

/-- Claim C1 (code bug): the claim says `put` records, once and for all,
the index within the buffer's FULL line sequence of the first line whose
closed tag is false.  The code instead assigns the loop index `i` local
to the current `put` call and re-initialises its `checkClosed` flag on
every call.  Concretely: after `put([closed "a"])` then `put([open "b"])`
the marker is `0` although the first open line sits at index `1` of the
full sequence; and after `put([open "c"])` (marker recorded as `0`) a
later `put([closed "d", open "e"])` overwrites the marker to `1`. -/
theorem C1_put_marker_code_bug :
    ((OutputBuffer.empty.put [{ content := "a", entryClosed := true }]).put
        [{ content := "b", entryClosed := false }]).firstOpenLineIdx = 0 ∧
    (((OutputBuffer.empty.put [{ content := "a", entryClosed := true }]).put
        [{ content := "b", entryClosed := false }]).lines.findIdx
      fun l => !l.entryClosed) = 1 ∧
    (OutputBuffer.empty.put [{ content := "c", entryClosed := false }]).firstOpenLineIdx
      = 0 ∧
    ((OutputBuffer.empty.put [{ content := "c", entryClosed := false }]).put
        [{ content := "d", entryClosed := true },
         { content := "e", entryClosed := false }]).firstOpenLineIdx = 1 := by
  refine ⟨rfl, rfl, rfl, rfl⟩

/-- Claim C2 counterexample: after `delete()` the entry's content list is
empty, but joining an empty list gives the empty string and splitting the
empty string on newlines gives one empty piece, so `getContent()` returns
ONE line of empty text — not the empty sequence the claim states. -/
theorem C2_delete_getContent_counterexample :
    (mkEntry [{ truthy := true, toStr := "x" }]).delete.1.getContent.1 ≠ [] ∧
    (mkEntry [{ truthy := true, toStr := "x" }]).delete.1.getContent.1 =
      [{ content := "", entryClosed := true }] := by
  exact ⟨by decide, rfl⟩

/-- Claim C2 (amended): after `delete()`, `isClosed` and `isDeleted` are
true and every subsequent `getContent()` call returns a single line with
empty text tagged closed (not the empty sequence) — also after repeated
`getContent()` calls and after any later `setSeparator`. -/
theorem C2_delete_spec (e : OutputEntry) :
    e.delete.1.isClosed = true ∧
    e.delete.1.isDeleted = true ∧
    e.delete.1.getContent.1 = [{ content := "", entryClosed := true }] ∧
    e.delete.1.getContent.2.getContent.1 = [{ content := "", entryClosed := true }] ∧
    ∀ s r, ((e.delete.1.setSeparator s r).1.getContent.1 =
      [{ content := "", entryClosed := true }]) := by
  exact ⟨rfl, rfl, rfl, rfl, fun s r => rfl⟩

/-- Claim C3 counterexample: `setSeparator` is not gated by the closed
flag, so it changes the rendered content of a closed entry: the closed
entry ["a", "b"] renders "a b", and after `setSeparator("-")` it renders
"a-b" — refuting "no subsequent operation changes getContent() after
closing". -/
theorem C3_closed_setSeparator_counterexample :
    (mkEntry [{ truthy := true, toStr := "a" },
              { truthy := true, toStr := "b" }]).close.isClosed = true ∧
    (mkEntry [{ truthy := true, toStr := "a" },
              { truthy := true, toStr := "b" }]).close.getContent.1 =
      [{ content := "a b", entryClosed := true }] ∧
    ((mkEntry [{ truthy := true, toStr := "a" },
               { truthy := true, toStr := "b" }]).close.setSeparator "-"
        false).1.getContent.1 =
      [{ content := "a-b", entryClosed := true }] := by
  exact ⟨rfl, rfl, rfl⟩

/-- Claim C3 (amended): once `closed` is true, `update` requests are
silently ignored and can never change `getContent()`'s result; however
`setSeparator` (and `delete`) are not gated by the closed flag, so those
mutators can still change a closed entry's rendered content. -/
theorem C3_closed_update_cannot_change_content (e : OutputEntry)
    (a : OutputEntry.UpdateArg) (h : e.isClosed = true) :
    e.update a = { entry := e, renderRequested := false, returnsHandle := false } ∧
    (e.update a).entry.getContent.1 = e.getContent.1 := by
  have h1 := OutputEntry.update_of_closed e a h
  exact ⟨h1, by rw [h1]⟩

/-- Witness for C3: the amended theorem applied to a concrete closed
entry and a concrete update argument. -/
theorem C3_closed_update_cannot_change_content_witness :
    (mkEntry [{ truthy := true, toStr := "a" }]).close.update
        (OutputEntry.UpdateArg.val []) =
      { entry := (mkEntry [{ truthy := true, toStr := "a" }]).close,
        renderRequested := false, returnsHandle := false } :=
  (C3_closed_update_cannot_change_content _ _ rfl).1

/-- Claim C4: every sequence of `update` calls made after `close()`
leaves `getContent()`'s result unchanged; in particular (scenario B) an
entry updated to "y", closed, then updated to "z" still renders "y". -/
theorem C4_post_close_updates_ignored (e : OutputEntry)
    (args : List OutputEntry.UpdateArg) :
    (e.close.applyUpdates args).getContent.1 = e.close.getContent.1 ∧
    (((mkEntry [{ truthy := true, toStr := "x" }]).update
        (OutputEntry.UpdateArg.val [{ truthy := true, toStr := "y" }])).entry.close.update
        (OutputEntry.UpdateArg.val [{ truthy := true, toStr := "z" }])).entry.getContent.1 =
      [{ content := "y", entryClosed := true }] := by
  refine ⟨?_, rfl⟩
  rw [OutputEntry.applyUpdates_of_closed e.close rfl args]

/-- Claim C5: for an open entry, a transform that throws is swallowed:
only the memo cache is cleared while content, separator and lifecycle
flags are retained, no render is requested, and the handle is still
returned to the caller; and whenever a transform succeeds on the same
entry, a render is requested. -/
theorem C5_transform_failure_swallowed (e : OutputEntry)
    (f : List Stringifyable → Option (List Stringifyable))
    (hopen : e.isClosed = false) (hfail : f e.content = none) :
    e.update (OutputEntry.UpdateArg.fn f) =
      { entry := { e with contentMemo := none }, renderRequested := false,
        returnsHandle := true } ∧
    (e.update (OutputEntry.UpdateArg.fn f)).entry.getContent.1 = e.renderLines ∧
    ∀ (g : List Stringifyable → Option (List Stringifyable)) v, g e.content = some v →
      (e.update (OutputEntry.UpdateArg.fn g)).renderRequested = true := by
  have h1 : e.update (OutputEntry.UpdateArg.fn f) =
      { entry := { e with contentMemo := none }, renderRequested := false,
        returnsHandle := true } := by
    simp [OutputEntry.update, hopen, hfail]
  refine ⟨h1, by rw [h1]; rfl, fun g v hg => by simp [OutputEntry.update, hopen, hg]⟩

/-- Witness for C5: a concrete open entry, a transform that always
throws (content retained, no render, handle returned) and a transform
that succeeds (render requested). -/
theorem C5_transform_failure_swallowed_witness :
    (mkEntry [{ truthy := true, toStr := "x" }]).update
        (OutputEntry.UpdateArg.fn fun _ => none) =
      { entry := mkEntry [{ truthy := true, toStr := "x" }],
        renderRequested := false, returnsHandle := true } ∧
    ((mkEntry [{ truthy := true, toStr := "x" }]).update
        (OutputEntry.UpdateArg.fn fun c => some c)).renderRequested = true := by
  refine ⟨(C5_transform_failure_swallowed (mkEntry [{ truthy := true, toStr := "x" }])
      (fun _ => none) rfl rfl).1,
    (C5_transform_failure_swallowed (mkEntry [{ truthy := true, toStr := "x" }])
      (fun _ => none) rfl rfl).2.2 (fun c => some c)
      [{ truthy := true, toStr := "x" }] rfl⟩

/-- The scan loop of `findFirstDifferentLine` returns the first index of
the scanned range on which the two buffers' optional line texts differ. -/
theorem OutputBuffer.findAux_eq_range_find (a b : OutputBuffer) (lim : Nat) :
    ∀ n i, lim - i = n →
      OutputBuffer.findAux a b lim i = (List.range' i n).find? (a.diffAt b) := by
  intro n
  induction n with
  | zero =>
    intro i h
    have hi : ¬ i < lim := by omega
    rw [OutputBuffer.findAux, if_neg hi]
    rfl
  | succ n ih =>
    intro i h
    have hi : i < lim := by omega
    rw [OutputBuffer.findAux, if_pos hi]
    have hr : List.range' i (n + 1) = i :: List.range' (i + 1) n :=
      List.range'_succ i n 1
    rw [hr]
    cases hd : a.diffAt b i with
    | true => simp [List.find?, hd]
    | false =>
      simp only [List.find?, hd, if_false]
      exact ih (i + 1) (by omega)

/-- Claim C6: `findFirstDifferentLine` scans the indices from the
receiver's `firstOpenLineIdx` up to the maximum of the two buffers'
line counts, returning the first index at which the optional line texts
differ (absent-versus-present counts as a difference, encoded in
`diffAt`) and `none` when the scan completes without finding one —
i.e. it agrees with the specification-level description
`findFirstDifferentLineSpec`. -/
theorem C6_findFirstDifferentLine_follows_spec (a b : OutputBuffer) :
    a.findFirstDifferentLine b = a.findFirstDifferentLineSpec b :=
  OutputBuffer.findAux_eq_range_find a b
    (max a.lines.length b.lines.length)
    (max a.lines.length b.lines.length - a.firstOpenLineIdx)
    a.firstOpenLineIdx rfl

/-- Claim C7: on the recompute path (no memo present), `getContent`
computes its lines by dropping falsy fields, converting the remaining
fields to text, joining with the separator, splitting the joined text on
newlines, and tagging each resulting line with the entry's current
closed state; in particular the content ["a", undefined, "c"] with
separator "-" renders as the single line "a-c". -/
theorem C7_getContent_pipeline (e : OutputEntry) (h : e.contentMemo = none) :
    e.getContent.1 =
      (jsSplitLines (String.intercalate e.separator
          ((e.content.filter fun c => c.truthy).map fun c => c.toStr))).map
        (fun txt => { content := txt, entryClosed := e.isClosed }) ∧
    ({ content := [{ truthy := true, toStr := "a" }, jsUndefined,
                   { truthy := true, toStr := "c" }],
       separator := "-", isClosed := false, isDeleted := false,
       contentMemo := none : OutputEntry }).getContent.1 =
      [{ content := "a-c", entryClosed := false }] := by
  have h2 : e.getContent = (e.renderLines, { e with contentMemo := some e.renderLines }) := by
    unfold OutputEntry.getContent
    rw [h]
  exact ⟨by rw [h2]; rfl, rfl⟩

/-- Witness for C7: the pipeline theorem applied to the concrete entry
["a", undefined, "c"] with the default separator and no memo. -/
theorem C7_getContent_pipeline_witness :
    (mkEntry [{ truthy := true, toStr := "a" }, jsUndefined,
              { truthy := true, toStr := "c" }]).getContent.1 =
      (jsSplitLines (String.intercalate " " ["a", "c"])).map
        (fun txt => { content := txt, entryClosed := false }) :=
  (C7_getContent_pipeline (mkEntry [{ truthy := true, toStr := "a" }, jsUndefined,
      { truthy := true, toStr := "c" }]) rfl).1

/-- Requesting a render while one is already queued does nothing. -/
theorem rerenderRequest_of_queued (s : RenderSchedState) (h : s.isRenderQueued = true) :
    rerenderRequest s = s := by
  simp [rerenderRequest, h]

/-- Iterating render requests on an already-queued state does nothing. -/
theorem rerenderRequest_iterate_of_queued (k : Nat) (s : RenderSchedState)
    (h : s.isRenderQueued = true) : rerenderRequest^[k] s = s := by
  induction k with
  | zero => rfl
  | succ k ih => rw [Function.iterate_succ_apply, rerenderRequest_of_queued s h, ih]

/-- Claim C8: a burst of N >= 1 render requests within one coalescing
window (no timeout fires in between, starting with no render queued and
no pending timeout) schedules exactly one `setTimeout` callback, leaves
the queued flag set, and when the callback fires the flag is cleared and
the throttled render function is invoked exactly once. -/
theorem C8_render_request_coalescing (s : RenderSchedState) (N : Nat) (hN : 1 ≤ N)
    (hq : s.isRenderQueued = false) (hp : s.pendingTimeouts = 0) :
    (rerenderRequest^[N] s).pendingTimeouts = 1 ∧
    (rerenderRequest^[N] s).isRenderQueued = true ∧
    (fireTimeout (rerenderRequest^[N] s)).isRenderQueued = false ∧
    (fireTimeout (rerenderRequest^[N] s)).pendingTimeouts = 0 ∧
    (fireTimeout (rerenderRequest^[N] s)).throttledInvocations =
      s.throttledInvocations + 1 := by
  obtain ⟨m, rfl⟩ : ∃ m, N = m + 1 := ⟨N - 1, by omega⟩
  have h1 : rerenderRequest s =
      { s with isRenderQueued := true, pendingTimeouts := s.pendingTimeouts + 1 } := by
    simp [rerenderRequest, hq]
  have h2 : rerenderRequest^[m + 1] s = rerenderRequest s := by
    rw [Function.iterate_succ_apply]
    exact rerenderRequest_iterate_of_queued m (rerenderRequest s) (by rw [h1])
  rw [h2, h1]
  simp [fireTimeout, hp]

/-- Witness for C8: a burst of three requests from the idle state with
five prior throttled invocations. -/
theorem C8_render_request_coalescing_witness :
    (rerenderRequest^[3] ⟨false, 0, 5⟩).pendingTimeouts = 1 ∧
    (rerenderRequest^[3] ⟨false, 0, 5⟩).isRenderQueued = true ∧
    (fireTimeout (rerenderRequest^[3] ⟨false, 0, 5⟩)).isRenderQueued = false ∧
    (fireTimeout (rerenderRequest^[3] ⟨false, 0, 5⟩)).pendingTimeouts = 0 ∧
    (fireTimeout (rerenderRequest^[3] ⟨false, 0, 5⟩)).throttledInvocations = 5 + 1 :=
  C8_render_request_coalescing ⟨false, 0, 5⟩ 3 (by decide) rfl rfl

/-- Claim C9 (code bug): `update` on a closed entry takes the bare
`return;` path and hands `undefined` back to the caller instead of the
entry handle that the spec promises for every call; on an open entry the
handle is returned. -/
theorem C9_update_closed_returns_no_handle :
    ((mkEntry [{ truthy := true, toStr := "y" }]).close.update
        (OutputEntry.UpdateArg.val [{ truthy := true, toStr := "z" }])).returnsHandle
      = false ∧
    ((mkEntry [{ truthy := true, toStr := "y" }]).update
        (OutputEntry.UpdateArg.val [{ truthy := true, toStr := "z" }])).returnsHandle
      = true := by
  exact ⟨rfl, rfl⟩

/-- Claim C10: `Output.line` tests its separator argument for truthiness
(`if (separator)`), so an empty-string separator is ignored and the
default single space stays in effect, while `Output.dline` tests against
`undefined` (`if (separator !== undefined)`), so the empty-string
separator is applied — the same content and separator arguments render
differently through the two helpers: "a b" versus "ab". -/
theorem C10_line_dline_empty_separator :
    (∀ content : List Stringifyable,
      (lineOp content (some "")).separator = " " ∧
      (dlineOp content (some "")).separator = "") ∧
    (lineOp [{ truthy := true, toStr := "a" }, { truthy := true, toStr := "b" }]
        (some "")).getContent.1 = [{ content := "a b", entryClosed := true }] ∧
    (dlineOp [{ truthy := true, toStr := "a" }, { truthy := true, toStr := "b" }]
        (some "")).getContent.1 = [{ content := "ab", entryClosed := false }] := by
  exact ⟨fun content => ⟨rfl, rfl⟩, rfl, rfl⟩
